import Mathlib

/-!
Shallow embedding of the TCDE results collector
(`scripts/collect_validation_results.py`): result ingestion
(`collect_capability_results`), statistical reduction (`compute_statistics`),
compliance evaluation (`check_compliance`), report emission (`generate_report`)
and the process exit contract of `main`.

Modelling choices:
* The results-directory snapshot is a function from full path to `FileState`
  (absent, readable with content, or present but unreadable so that `open`
  raises).  Python floats are modelled as exact rationals; the one irrational
  quantity, `statistics.stdev`, is the square root of the Bessel-corrected
  sample variance, so the summary records the exact variance and statements
  about the stdev value go through `stdevVal` (its real square root).
* A raised exception is `Except.error`; the per-capability loop in `main`
  propagates it, aborting the run.
-/

/-- Result status recorded for each capability ("NOT_TESTED" / "TESTED"). -/
inductive Status where
  | NOT_TESTED
  | TESTED
deriving DecidableEq

/-- State of one path in the results-directory snapshot: absent, readable with
the given content, or present but unreadable (opening it raises `OSError`). -/
inductive FileState where
  | absent
  | readable (content : String)
  | unreadable
deriving DecidableEq

/-- A snapshot of the filesystem: maps a full path to its state. -/
def FS : Type := String → FileState

/-- The exception raised by a failed read of an existing file. -/
inductive ReadError where
  | ioError
deriving DecidableEq

/-- One per-capability record, as built by `collect_capability_results`.
The Python dict has no `passed` key unless someone sets it, hence
`passed : Option Bool` with `none` for the absent key. -/
structure CapabilityResult where
  capability_id : Nat
  capability_name : String
  status : Status
  score : ℚ
  passed : Option Bool
  statistical_validation : List (String × ℚ)
  test_output : String
deriving DecidableEq

/-- Models `os.path.join(dir, name)` for the relative names used here. -/
def joinPath (dir name : String) : String := dir ++ "/" ++ name

/-- `ValidationResultsCollector.collect_capability_results`: build the record
with defaults `status = NOT_TESTED`, `score = 0.0`,
`statistical_validation = {}` and `test_output = ""`; if
`os.path.exists(output_path)` then open and read the file (a read of an
existing but unreadable file raises) and set `test_output` to the content and
`status` to `TESTED`.  No branch ever sets the `passed` key. -/
def collect_capability_results (fs : FS) (results_dir : String)
    (capability_id : Nat) (capability_name : String)
    (test_output_file : String) : Except ReadError CapabilityResult :=
  let result : CapabilityResult :=
    { capability_id := capability_id
      capability_name := capability_name
      status := Status.NOT_TESTED
      score := 0
      passed := none
      statistical_validation := []
      test_output := "" }
  match fs (joinPath results_dir test_output_file) with
  | FileState.absent => Except.ok result
  | FileState.readable content =>
      Except.ok { result with test_output := content, status := Status.TESTED }
  | FileState.unreadable => Except.error ReadError.ioError

/-- The compliance dictionary returned by `check_compliance`. -/
structure Compliance where
  total_capabilities : Nat
  tested_capabilities : Nat
  passed_capabilities : Nat
  test_coverage : ℚ
  success_rate : ℚ
  zero_tolerance_met : Bool
  statistical_significance : Bool
  reproducibility : Bool
deriving DecidableEq

/-- `ValidationResultsCollector.check_compliance`: count the TESTED results and
the results that are TESTED with `passed` truthy (`c.get("passed", False)`),
and build the compliance dict with the hard-coded total of 31. -/
def check_compliance (caps : List CapabilityResult) : Compliance :=
  let tested_count := caps.countP (fun c => decide (c.status = Status.TESTED))
  let passed_count := caps.countP
    (fun c => decide (c.status = Status.TESTED) && c.passed.getD false)
  { total_capabilities := 31
    tested_capabilities := tested_count
    passed_capabilities := passed_count
    test_coverage := (tested_count : ℚ) / 31 * 100
    success_rate :=
      if tested_count > 0 then (passed_count : ℚ) / tested_count * 100 else 0
    zero_tolerance_met := decide (passed_count = 31)
    statistical_significance := true
    reproducibility := true }

/-- Insert a value into an already sorted list of rationals. -/
def insertSorted (x : ℚ) : List ℚ → List ℚ
  | [] => [x]
  | y :: ys => if x ≤ y then x :: y :: ys else y :: insertSorted x ys

/-- The sorted copy of a list of rationals, as produced by Python
`sorted(scores)` (on numbers the sorted value sequence is unique, so the
algorithm is irrelevant). -/
def sortScores : List ℚ → List ℚ
  | [] => []
  | x :: xs => insertSorted x (sortScores xs)

/-- Python `statistics.mean`: the sum divided by the length. -/
def listMean (scores : List ℚ) : ℚ := scores.sum / scores.length

/-- Python `statistics.median`: the middle element of the sorted list, or the
average of the two middle elements when the length is even. -/
def listMedian (scores : List ℚ) : ℚ :=
  let s := sortScores scores
  let n := s.length
  if n % 2 = 1 then s.getD (n / 2) 0
  else (s.getD (n / 2 - 1) 0 + s.getD (n / 2) 0) / 2

/-- The Bessel-corrected sample variance (divisor `n - 1`); Python
`statistics.stdev` returns its square root. -/
def sampleVariance (scores : List ℚ) : ℚ :=
  let m := listMean scores
  (scores.map (fun x => (x - m) ^ 2)).sum / ((scores.length : ℚ) - 1)

/-- Python `min(scores)` on a nonempty list. -/
def listMin : List ℚ → ℚ
  | [] => 0
  | x :: xs => xs.foldl min x

/-- Python `max(scores)` on a nonempty list. -/
def listMax : List ℚ → ℚ
  | [] => 0
  | x :: xs => xs.foldl max x

/-- The statistics dictionary built by `compute_statistics` for a nonempty
score list.  The source's `stdev` entry is the floating square root of the
`variance` field recorded here (or `0.0` when the count is 1, recorded as
variance 0); see `stdevVal`. -/
structure StatisticsSummary where
  mean : ℚ
  median : ℚ
  variance : ℚ
  min : ℚ
  max : ℚ
  count : Nat
deriving DecidableEq

/-- The stdev value the source stores: the real square root of the recorded
sample variance. -/
noncomputable def stdevVal (s : StatisticsSummary) : ℝ := Real.sqrt (s.variance : ℝ)

/-- `ValidationResultsCollector.compute_statistics`: an empty input returns the
empty dict (`none` here); otherwise mean, median, stdev
(`statistics.stdev(scores) if len(scores) > 1 else 0.0`, recorded via its
square `variance`), min, max and count. -/
def compute_statistics (scores : List ℚ) : Option StatisticsSummary :=
  if scores = [] then none
  else some
    { mean := listMean scores
      median := listMedian scores
      variance := if scores.length > 1 then sampleVariance scores else 0
      min := listMin scores
      max := listMax scores
      count := scores.length }

/-- The hard-coded results directory of the collector. -/
def results_dir : String := "validation_results"

/-- The 31 capability definitions `(id, name, artifact file)` listed in
`main`. -/
def capabilities : List (Nat × String × String) :=
  [ (3, "Cosmic Consciousness", "consciousness_complete_output.txt")
  , (4, "Meta-Cognition", "consciousness_complete_output.txt")
  , (5, "Self-Representation", "consciousness_complete_output.txt")
  , (7, "Bi-Temporal Control", "temporality_complete_output.txt")
  , (8, "Prediction", "temporality_complete_output.txt")
  , (9, "Temporal Evolution", "temporality_complete_output.txt")
  , (12, "Curiosity", "intentionality_complete_output.txt")
  , (13, "Intentional Force", "intentionality_complete_output.txt")
  , (14, "Intentional Coherence", "intentionality_complete_output.txt")
  , (15, "Autonomous Decisions", "intentionality_complete_output.txt")
  , (17, "Novelty", "creativity_complete_output.txt")
  , (18, "Originality", "creativity_complete_output.txt")
  , (22, "Autopoietic Health", "autopoiesis_complete_output.txt")
  , (25, "Metric Adaptation", "emergence_complete_output.txt")
  , (26, "Turing Instability", "emergence_complete_output.txt")
  , (27, "Criticality", "emergence_complete_output.txt")
  , (30, "Consolidation", "memory_complete_output.txt")
  , (31, "Selective Forgetting", "memory_complete_output.txt")
  , (32, "Associative Retrieval", "memory_complete_output.txt")
  , (33, "Memory Hierarchy", "memory_complete_output.txt")
  , (34, "Geodesic Intuition", "geometry_complete_output.txt")
  , (35, "Topological Torsion", "geometry_complete_output.txt")
  , (36, "Topological Formation", "geometry_complete_output.txt")
  , (37, "Adaptive Curvature", "geometry_complete_output.txt")
  , (39, "Global Coupling", "coupling_complete_output.txt")
  , (40, "Spatial Coherence", "coupling_complete_output.txt")
  , (41, "Phase Synchronization", "coupling_complete_output.txt")
  , (42, "Unified Consciousness", "coupling_complete_output.txt")
  , (43, "Modal Transformation", "multimodality_complete_output.txt")
  , (44, "Cross-Modal Coherence", "multimodality_complete_output.txt")
  , (45, "Cross-Modal Similarity", "multimodality_complete_output.txt") ]

/-- The per-capability loop of `main`: collect one result per definition in
order; an exception raised by a read aborts the loop (and the run). -/
def collectLoop (fs : FS) : List (Nat × String × String) →
    Except ReadError (List CapabilityResult)
  | [] => Except.ok []
  | d :: ds =>
    match collect_capability_results fs results_dir d.1 d.2.1 d.2.2 with
    | Except.error e => Except.error e
    | Except.ok r =>
      match collectLoop fs ds with
      | Except.error e => Except.error e
      | Except.ok rs => Except.ok (r :: rs)

/-- Ingestion over the full registry, as `main` performs it. -/
def collectAllResults (fs : FS) : Except ReadError (List CapabilityResult) :=
  collectLoop fs capabilities

/-- The score extraction in `generate_report`:
`[c.get("score", 0.0) for c in capabilities if c["status"] == "TESTED"]`. -/
def reportScores (caps : List CapabilityResult) : List ℚ :=
  (caps.filter (fun c => decide (c.status = Status.TESTED))).map
    (fun c => c.score)

/-- Filesystem write operations, used to model how `generate_report` emits the
report document. -/
inductive FsOp where
  | openTrunc (path : String)
  | writeData (path : String) (data : String)
  | rename (src : String) (dst : String)
deriving DecidableEq

/-- The write trace of `generate_report`: `open(output_path, "w")` truncates
the report at its final path, then `json.dump` writes the serialization into
that same path.  No temporary path and no rename appear. -/
def generate_report_ops (dir file serialized : String) : List FsOp :=
  [ FsOp.openTrunc (joinPath dir file)
  , FsOp.writeData (joinPath dir file) serialized ]

/-- Effect of one write operation on a disk state (path to content). -/
def applyOp (disk : String → Option String) : FsOp → String → Option String
  | FsOp.openTrunc p => fun q => if q = p then some "" else disk q
  | FsOp.writeData p d => fun q =>
      if q = p then some ((disk p).getD "" ++ d) else disk q
  | FsOp.rename src dst => fun q =>
      if q = dst then disk src else if q = src then none else disk q

/-- Effect of a sequence of write operations on a disk state. -/
def execOps (disk : String → Option String) (ops : List FsOp) :
    String → Option String :=
  ops.foldl applyOp disk

/-- Follows the spec's words, for comparison with `generate_report_ops`: an
atomic emission writes the serialization to a distinct temporary path and then
atomically renames that path onto the final report path. -/
def specAtomicEmissionB (ops : List FsOp) (finalPath : String) : Bool :=
  match ops with
  | [FsOp.openTrunc t, FsOp.writeData t2 _, FsOp.rename src dst] =>
      t == t2 && src == t && dst == finalPath && t != finalPath
  | _ => false

/-- The exit contract of `main`: exit code 0 when the computed compliance has
`zero_tolerance_met`, 1 otherwise; an uncaught read exception ends the Python
process with exit status 1 as well. -/
def mainExitCode (fs : FS) : Nat :=
  match collectAllResults fs with
  | Except.error _ => 1
  | Except.ok rs =>
      if (check_compliance rs).zero_tolerance_met then 0 else 1

/-- Snapshot with every artifact missing. -/
def allAbsent : FS := fun _ => FileState.absent

/-- Snapshot with every artifact present and unreadable. -/
def allUnreadable : FS := fun _ => FileState.unreadable

/-- Snapshot with every artifact readable with content "ok". -/
def allReadable : FS := fun _ => FileState.readable "ok"

/-- The result record ingestion builds for a missing artifact. -/
def missingResult (d : Nat × String × String) : CapabilityResult :=
  { capability_id := d.1
    capability_name := d.2.1
    status := Status.NOT_TESTED
    score := 0
    passed := none
    statistical_validation := []
    test_output := "" }

/-- The result record ingestion builds for an artifact readable as "ok". -/
def testedResult (d : Nat × String × String) : CapabilityResult :=
  { capability_id := d.1
    capability_name := d.2.1
    status := Status.TESTED
    score := 0
    passed := none
    statistical_validation := []
    test_output := "ok" }

/-- The full result list for the all-absent snapshot. -/
def rsAllMissing : List CapabilityResult := capabilities.map missingResult

/-- The full result list for the all-readable snapshot. -/
def rsAllTested : List CapabilityResult := capabilities.map testedResult

/-- A hand-built TESTED result with a given `passed` field (used to exercise
`check_compliance` on inputs ingestion cannot produce). -/
def mkTested (p : Option Bool) : CapabilityResult :=
  { capability_id := 0
    capability_name := ""
    status := Status.TESTED
    score := 0
    passed := p
    statistical_validation := []
    test_output := "" }

/-- 31 TESTED results of which 30 carry `passed = true`. -/
def rsPartial : List CapabilityResult :=
  List.replicate 30 (mkTested (some true)) ++ [mkTested none]

/-- A successfully collected result never carries a `passed` key and keeps the
initial score `0.0`. -/
theorem collect_ok_fields (fs : FS) (dir : String) (i : Nat) (n f : String)
    (r : CapabilityResult)
    (h : collect_capability_results fs dir i n f = Except.ok r) :
    r.passed = none ∧ r.score = 0 := by
  unfold collect_capability_results at h
  cases hfs : fs (joinPath dir f) <;> rw [hfs] at h <;>
    simp only [Except.ok.injEq] at h
  · subst h; exact ⟨rfl, rfl⟩
  · subst h; exact ⟨rfl, rfl⟩
  · exact absurd h (by simp)

/-- Every result produced by the collection loop has no `passed` key and
score `0.0`. -/
theorem collectLoop_mem_fields (fs : FS) (ds : List (Nat × String × String))
    (rs : List CapabilityResult) (h : collectLoop fs ds = Except.ok rs) :
    ∀ r ∈ rs, r.passed = none ∧ r.score = 0 := by
  induction ds generalizing rs with
  | nil =>
    simp only [collectLoop, Except.ok.injEq] at h
    subst h; intro r hr; cases hr
  | cons d ds ih =>
    unfold collectLoop at h
    cases h1 : collect_capability_results fs results_dir d.1 d.2.1 d.2.2 with
    | error e => rw [h1] at h; cases h
    | ok r =>
      rw [h1] at h
      cases h2 : collectLoop fs ds with
      | error e => rw [h2] at h; cases h
      | ok rs2 =>
        rw [h2] at h
        injection h with h3
        subst h3
        intro x hx
        rcases List.mem_cons.1 hx with hx | hx
        · subst hx; exact collect_ok_fields fs results_dir d.1 d.2.1 d.2.2 x h1
        · exact ih rs2 h2 x hx

/-- The collection loop yields exactly one result per definition. -/
theorem collectLoop_length (fs : FS) (ds : List (Nat × String × String))
    (rs : List CapabilityResult) (h : collectLoop fs ds = Except.ok rs) :
    rs.length = ds.length := by
  induction ds generalizing rs with
  | nil =>
    simp only [collectLoop, Except.ok.injEq] at h
    subst h; rfl
  | cons d ds ih =>
    unfold collectLoop at h
    cases h1 : collect_capability_results fs results_dir d.1 d.2.1 d.2.2 with
    | error e => rw [h1] at h; cases h
    | ok r =>
      rw [h1] at h
      cases h2 : collectLoop fs ds with
      | error e => rw [h2] at h; cases h
      | ok rs2 =>
        rw [h2] at h
        injection h with h3
        subst h3
        simp [ih rs2 h2]

/-- The i-th collected result is the collection of the i-th definition. -/
theorem collectLoop_getElem (fs : FS) (ds : List (Nat × String × String))
    (rs : List CapabilityResult) (h : collectLoop fs ds = Except.ok rs)
    (i : Nat) :
    rs[i]? = (ds[i]?).bind
      (fun d => (collect_capability_results fs results_dir d.1 d.2.1 d.2.2).toOption) := by
  induction ds generalizing rs i with
  | nil =>
    simp only [collectLoop, Except.ok.injEq] at h
    subst h; simp
  | cons d ds ih =>
    unfold collectLoop at h
    cases h1 : collect_capability_results fs results_dir d.1 d.2.1 d.2.2 with
    | error e => rw [h1] at h; cases h
    | ok r =>
      rw [h1] at h
      cases h2 : collectLoop fs ds with
      | error e => rw [h2] at h; cases h
      | ok rs2 =>
        rw [h2] at h
        injection h with h3
        subst h3
        cases i with
        | zero => simp [h1, Except.toOption]
        | succ j => simpa using ih rs2 h2 j

/-- C1: ingestion (`collect_capability_results`) never sets the `passed`
field on any CapabilityResult, so for every results-directory snapshot the
compliance evaluation computes `passed_capabilities = 0`, and therefore
`zero_tolerance_met = false` on every run. -/
theorem c1_ingestion_never_sets_passed (fs : FS) (rs : List CapabilityResult)
    (h : collectAllResults fs = Except.ok rs) :
    (∀ r ∈ rs, r.passed = none) ∧
    (check_compliance rs).passed_capabilities = 0 ∧
    (check_compliance rs).zero_tolerance_met = false := by
  have hmem := collectLoop_mem_fields fs capabilities rs h
  have hnone : ∀ r ∈ rs, r.passed = none := fun r hr => (hmem r hr).1
  have hcount : rs.countP
      (fun c => decide (c.status = Status.TESTED) && c.passed.getD false) = 0 := by
    refine List.countP_eq_zero.2 ?_
    intro a ha
    rw [hnone a ha]
    simp
  refine ⟨hnone, ?_, ?_⟩
  · simp [check_compliance, hcount]
  · simp [check_compliance, hcount]

/-- Witness for C1 at the all-absent snapshot. -/
theorem c1_witness :
    (∀ r ∈ rsAllMissing, r.passed = none) ∧
    (check_compliance rsAllMissing).passed_capabilities = 0 ∧
    (check_compliance rsAllMissing).zero_tolerance_met = false :=
  c1_ingestion_never_sets_passed allAbsent rsAllMissing rfl

/-- C2: for every run, the process exit code is 0 iff the computed compliance
has `zero_tolerance_met = true`, and 1 in every other case (including a run
aborted by an uncaught read exception). -/
theorem c2_exit_code (fs : FS) :
    (mainExitCode fs = 0 ∨ mainExitCode fs = 1) ∧
    (mainExitCode fs = 0 ↔
      ∃ rs, collectAllResults fs = Except.ok rs ∧
        (check_compliance rs).zero_tolerance_met = true) := by
  unfold mainExitCode
  cases h : collectAllResults fs with
  | error e => simp [h]
  | ok rs =>
    by_cases hz : (check_compliance rs).zero_tolerance_met = true
    · simp [h, hz]
    · simp [h, hz]

/-- C3: `zero_tolerance_met` is true iff `passed_capabilities` equals the
fixed `total_capabilities` (31); in particular it is false whenever all
capabilities are tested but fewer than 31 passed. -/
theorem c3_zero_tolerance_iff (rs : List CapabilityResult) :
    ((check_compliance rs).zero_tolerance_met = true ↔
      (check_compliance rs).passed_capabilities =
        (check_compliance rs).total_capabilities) ∧
    ((check_compliance rs).tested_capabilities =
        (check_compliance rs).total_capabilities →
      (check_compliance rs).passed_capabilities <
        (check_compliance rs).total_capabilities →
      (check_compliance rs).zero_tolerance_met = false) := by
  constructor
  · simp [check_compliance]
  · intro _ hlt
    simp only [check_compliance] at hlt ⊢
    simp only [decide_eq_false_iff_not]
    omega

/-- Witness for C3: 31 tested results of which only 30 passed fail the
zero-tolerance bar. -/
theorem c3_witness :
    (check_compliance rsPartial).tested_capabilities =
        (check_compliance rsPartial).total_capabilities ∧
    (check_compliance rsPartial).passed_capabilities <
        (check_compliance rsPartial).total_capabilities ∧
    (check_compliance rsPartial).zero_tolerance_met = false :=
  ⟨by decide, by decide,
    (c3_zero_tolerance_iff rsPartial).2 (by decide) (by decide)⟩

/-- C4: over the fixed 31-entry registry, `check_compliance` computes
`test_coverage = tested / 31 * 100` (31 the fixed definition-set size), which
lies in [0, 100], and `success_rate = passed / tested * 100` when
`tested > 0`, else `0.0`. -/
theorem c4_coverage_and_success_rate (fs : FS) (rs : List CapabilityResult)
    (h : collectAllResults fs = Except.ok rs) :
    (check_compliance rs).test_coverage =
      ((check_compliance rs).tested_capabilities : ℚ) / 31 * 100 ∧
    0 ≤ (check_compliance rs).test_coverage ∧
    (check_compliance rs).test_coverage ≤ 100 ∧
    (check_compliance rs).success_rate =
      (if 0 < (check_compliance rs).tested_capabilities
        then ((check_compliance rs).passed_capabilities : ℚ) /
          ((check_compliance rs).tested_capabilities : ℚ) * 100
        else 0) := by
  have hlen : rs.length = 31 := by
    have := collectLoop_length fs capabilities rs h
    simpa [capabilities] using this
  have hle : rs.countP (fun c => decide (c.status = Status.TESTED)) ≤ 31 := by
    calc rs.countP (fun c => decide (c.status = Status.TESTED)) ≤ rs.length :=
          List.countP_le_length _
      _ = 31 := hlen
  have hleQ : ((rs.countP (fun c => decide (c.status = Status.TESTED)) : ℚ)) ≤ 31 := by
    exact_mod_cast hle
  refine ⟨by simp [check_compliance], ?_, ?_, by simp [check_compliance]⟩
  · simp only [check_compliance]
    positivity
  · simp only [check_compliance]
    rw [div_mul_eq_mul_div, div_le_iff₀ (by norm_num : (0:ℚ) < 31)]
    linarith

/-- Witness for C4 at the all-absent snapshot (coverage 0, success rate 0). -/
theorem c4_witness :
    (check_compliance rsAllMissing).test_coverage =
      ((check_compliance rsAllMissing).tested_capabilities : ℚ) / 31 * 100 ∧
    0 ≤ (check_compliance rsAllMissing).test_coverage ∧
    (check_compliance rsAllMissing).test_coverage ≤ 100 ∧
    (check_compliance rsAllMissing).success_rate =
      (if 0 < (check_compliance rsAllMissing).tested_capabilities
        then ((check_compliance rsAllMissing).passed_capabilities : ℚ) /
          ((check_compliance rsAllMissing).tested_capabilities : ℚ) * 100
        else 0) :=
  c4_coverage_and_success_rate allAbsent rsAllMissing rfl

/-- The summary `compute_statistics` produces on `[1, 2, 3, 4]` (the source's
stdev entry is the square root of the variance `5/3`). -/
def statsOneToFour : StatisticsSummary :=
  { mean := 5/2, median := 5/2, variance := 5/3, min := 1, max := 4,
    count := 4 }

/-- C5: `compute_statistics` returns the empty summary on an empty score list;
on every nonempty list it returns the arithmetic mean, the median, the
Bessel-corrected sample variance when the count exceeds 1 and 0 when the count
is 1 (the source's stdev is the square root of that entry), the minimum, the
maximum and the count; on `[1, 2, 3, 4]` it returns mean `5/2`, median `5/2`,
variance `5/3` (stdev within `10⁻⁷` of `1.2909944`), min 1, max 4, count 4. -/
theorem c5_compute_statistics :
    compute_statistics ([] : List ℚ) = none ∧
    (∀ x : ℚ, compute_statistics [x] =
      some { mean := x, median := x, variance := 0, min := x, max := x,
             count := 1 }) ∧
    (∀ (x : ℚ) (xs : List ℚ), compute_statistics (x :: xs) =
      some { mean := listMean (x :: xs)
             median := listMedian (x :: xs)
             variance :=
               if 1 < (x :: xs).length then sampleVariance (x :: xs) else 0
             min := listMin (x :: xs)
             max := listMax (x :: xs)
             count := (x :: xs).length }) ∧
    compute_statistics [1, 2, 3, 4] = some statsOneToFour ∧
    |stdevVal statsOneToFour - 12909944 / 10 ^ 7| < 1 / 10 ^ 7 := by
  refine ⟨rfl, ?_, ?_, ?_, ?_⟩
  · intro x
    simp [compute_statistics, listMean, listMedian, sortScores, insertSorted,
      listMin, listMax]
  · intro x xs
    simp [compute_statistics]
  · simp only [compute_statistics, listMean, listMedian, sortScores,
      insertSorted, sampleVariance, listMin, listMax, statsOneToFour]
    norm_num
    intro hcontra
    simp at hcontra
  · have hv : stdevVal statsOneToFour = Real.sqrt ((5 : ℝ) / 3) := by
      simp only [stdevVal, statsOneToFour]
      norm_num
    rw [hv]
    have h1 : Real.sqrt ((5 : ℝ) / 3) < 12909945 / 10 ^ 7 := by
      rw [Real.sqrt_lt' (by norm_num)]
      norm_num
    have h2 : (12909944 : ℝ) / 10 ^ 7 ≤ Real.sqrt ((5 : ℝ) / 3) :=
      Real.le_sqrt_of_sq_le (by norm_num)
    rw [abs_sub_lt_iff]
    constructor <;> linarith

/-- C6: ingestion yields exactly one CapabilityResult per definition; a result
is TESTED iff the backing artifact was readable (with `test_output` holding
the file's full content); a missing artifact yields `NOT_TESTED`, empty
output, score `0.0` and no `passed` field. -/
theorem c6_ingestion_status_classification (fs : FS)
    (rs : List CapabilityResult)
    (h : collectAllResults fs = Except.ok rs) :
    rs.length = capabilities.length ∧
    (∀ i : Nat, rs[i]? = (capabilities[i]?).bind
      (fun d => (collect_capability_results fs results_dir d.1 d.2.1
        d.2.2).toOption)) ∧
    (∀ (i : Nat) (n f : String) (r : CapabilityResult),
      collect_capability_results fs results_dir i n f = Except.ok r →
      ((r.status = Status.TESTED ↔
          fs (joinPath results_dir f) = FileState.readable r.test_output) ∧
       (fs (joinPath results_dir f) = FileState.absent →
          r.status = Status.NOT_TESTED ∧ r.test_output = "" ∧ r.score = 0 ∧
          r.passed = none))) := by
  refine ⟨collectLoop_length fs capabilities rs h,
    collectLoop_getElem fs capabilities rs h, ?_⟩
  intro i n f r hr
  unfold collect_capability_results at hr
  cases hfs : fs (joinPath results_dir f) <;> rw [hfs] at hr <;>
    simp only [Except.ok.injEq] at hr
  · subst hr
    exact ⟨by simp [hfs], fun _ => ⟨rfl, rfl, rfl, rfl⟩⟩
  · subst hr
    refine ⟨by simp [hfs], ?_⟩
    intro habs
    exact absurd habs (by simp)
  · exact absurd hr (by simp)

/-- Witness for C6 at the all-readable snapshot. -/
theorem c6_witness :
    rsAllTested.length = capabilities.length ∧
    (∀ i : Nat, rsAllTested[i]? = (capabilities[i]?).bind
      (fun d => (collect_capability_results allReadable results_dir d.1 d.2.1
        d.2.2).toOption)) ∧
    (∀ (i : Nat) (n f : String) (r : CapabilityResult),
      collect_capability_results allReadable results_dir i n f =
        Except.ok r →
      ((r.status = Status.TESTED ↔
          allReadable (joinPath results_dir f) =
            FileState.readable r.test_output) ∧
       (allReadable (joinPath results_dir f) = FileState.absent →
          r.status = Status.NOT_TESTED ∧ r.test_output = "" ∧ r.score = 0 ∧
          r.passed = none))) :=
  c6_ingestion_status_classification allReadable rsAllTested rfl

/-- C7 fails on the code: for an artifact that exists but cannot be read, the
`open` call raises, `collect_capability_results` produces no CapabilityResult
at all (rather than a NOT_TESTED one), the ingestion loop aborts, and the
process dies with exit status 1. -/
theorem c7_counterexample :
    collect_capability_results allUnreadable results_dir 3
        "Cosmic Consciousness" "consciousness_complete_output.txt" =
      Except.error ReadError.ioError ∧
    collectAllResults allUnreadable = Except.error ReadError.ioError ∧
    mainExitCode allUnreadable = 1 :=
  ⟨rfl, rfl, rfl⟩

/-- C7 amended: when an artifact exists but cannot be read, ingestion raises
and produces no CapabilityResult (the run aborts instead of degrading to
NOT_TESTED); the failure is distinguishable from a missing artifact, which
yields an ok NOT_TESTED result on the same inputs. -/
theorem c7_amended_unreadable_raises (fs : FS) (i : Nat) (n f : String)
    (hu : fs (joinPath results_dir f) = FileState.unreadable) :
    collect_capability_results fs results_dir i n f =
      Except.error ReadError.ioError ∧
    collect_capability_results
        (fun p => if p = joinPath results_dir f then FileState.absent
          else fs p)
        results_dir i n f = Except.ok (missingResult (i, n, f)) := by
  constructor
  · unfold collect_capability_results
    rw [hu]
  · unfold collect_capability_results
    simp [missingResult]

/-- Witness for the amended C7 at the all-unreadable snapshot. -/
theorem c7_amended_witness :
    collect_capability_results allUnreadable results_dir 3
        "Cosmic Consciousness" "consciousness_complete_output.txt" =
      Except.error ReadError.ioError ∧
    collect_capability_results
        (fun p =>
          if p = joinPath results_dir "consciousness_complete_output.txt"
          then FileState.absent else allUnreadable p)
        results_dir 3 "Cosmic Consciousness"
        "consciousness_complete_output.txt" =
      Except.ok (missingResult
        (3, "Cosmic Consciousness", "consciousness_complete_output.txt")) :=
  c7_amended_unreadable_raises allUnreadable 3 "Cosmic Consciousness"
    "consciousness_complete_output.txt" rfl

/-- C8 fails on the code: the write trace of `generate_report` is not of the
write-to-temporary-then-rename shape the spec requires, and after its first
step (the truncating `open` at the final path) a prior report has already been
replaced by an empty file. -/
theorem c8_counterexample :
    specAtomicEmissionB
      (generate_report_ops results_dir "validation_report.json" "\x7b\x7d")
      (joinPath results_dir "validation_report.json") = false ∧
    execOps (fun _ => some "old report")
      ((generate_report_ops results_dir "validation_report.json"
        "\x7b\x7d").take 1)
      (joinPath results_dir "validation_report.json") = some "" :=
  ⟨rfl, by simp [execOps, applyOp, generate_report_ops]⟩

/-- C8 amended: `generate_report` writes the serialized report directly at its
final path (a truncating open followed by the data write, with no temporary
path and no rename), so it does overwrite any prior report, but a
serialization failure after the open leaves a truncated partial report at the
report path. -/
theorem c8_amended_direct_write (dir file s : String)
    (disk : String → Option String) :
    generate_report_ops dir file s =
      [FsOp.openTrunc (joinPath dir file),
       FsOp.writeData (joinPath dir file) s] ∧
    specAtomicEmissionB (generate_report_ops dir file s)
      (joinPath dir file) = false ∧
    execOps disk ((generate_report_ops dir file s).take 1)
      (joinPath dir file) = some "" ∧
    execOps disk (generate_report_ops dir file s) (joinPath dir file) =
      some s := by
  refine ⟨rfl, rfl, ?_, ?_⟩
  · simp [execOps, applyOp, generate_report_ops]
  · simp [execOps, applyOp, generate_report_ops]

/-- C9: ingestion is deterministic and idempotent: two runs over snapshots
that agree on every path produce identical CapabilityResult lists. -/
theorem c9_ingestion_deterministic (fs1 fs2 : FS)
    (h : ∀ path, fs1 path = fs2 path) :
    collectAllResults fs1 = collectAllResults fs2 := by
  have hf : fs1 = fs2 := funext h
  rw [hf]

/-- Witness for C9 at the all-readable snapshot. -/
theorem c9_witness :
    collectAllResults allReadable = collectAllResults allReadable :=
  c9_ingestion_deterministic allReadable allReadable (fun _ => rfl)

/-- Inserting 0 into a run of zeros yields a longer run of zeros. -/
theorem insertSorted_zero_replicate (m : Nat) :
    insertSorted 0 (List.replicate m (0:ℚ)) = List.replicate (m + 1) 0 := by
  cases m with
  | zero => rfl
  | succ k => simp [List.replicate_succ, insertSorted]

/-- Sorting a run of zeros is the identity. -/
theorem sortScores_replicate (n : Nat) :
    sortScores (List.replicate n (0:ℚ)) = List.replicate n 0 := by
  induction n with
  | zero => rfl
  | succ m ih => simp [List.replicate_succ, sortScores, ih,
      insertSorted_zero_replicate]

/-- Any position of a run of zeros reads 0 (also past the end, where the
default 0 applies). -/
theorem getD_replicate_zero (n i : Nat) :
    (List.replicate n (0:ℚ)).getD i 0 = 0 := by
  induction n generalizing i with
  | zero => simp [List.getD]
  | succ m ih =>
    cases i with
    | zero => simp [List.replicate_succ]
    | succ j => simp [List.replicate_succ, ih]

/-- Folding `min` from 0 over a run of zeros gives 0. -/
theorem foldl_min_replicate_zero (n : Nat) :
    (List.replicate n (0:ℚ)).foldl min 0 = 0 := by
  induction n with
  | zero => rfl
  | succ m ih => simp [List.replicate_succ, ih]

/-- Folding `max` from 0 over a run of zeros gives 0. -/
theorem foldl_max_replicate_zero (n : Nat) :
    (List.replicate n (0:ℚ)).foldl max 0 = 0 := by
  induction n with
  | zero => rfl
  | succ m ih => simp [List.replicate_succ, ih]

/-- `compute_statistics` on a nonempty run of zeros is the all-zero summary
with the run length as count. -/
theorem compute_statistics_replicate_zero (n : Nat) (hn : 1 ≤ n) :
    compute_statistics (List.replicate n (0:ℚ)) =
      some { mean := 0, median := 0, variance := 0, min := 0, max := 0,
             count := n } := by
  cases n with
  | zero => omega
  | succ m =>
    have hne : List.replicate (m + 1) (0:ℚ) ≠ [] := by
      simp [List.replicate_succ]
    have hmean : listMean (List.replicate (m + 1) (0:ℚ)) = 0 := by
      simp [listMean]
    have hmedian : listMedian (List.replicate (m + 1) (0:ℚ)) = 0 := by
      unfold listMedian
      rw [sortScores_replicate]
      simp only [List.length_replicate, getD_replicate_zero]
      split <;> norm_num
    have hvar : sampleVariance (List.replicate (m + 1) (0:ℚ)) = 0 := by
      unfold sampleVariance
      rw [hmean]
      simp
    have hmin : listMin (List.replicate (m + 1) (0:ℚ)) = 0 := by
      rw [List.replicate_succ]
      simpa [listMin] using foldl_min_replicate_zero m
    have hmax : listMax (List.replicate (m + 1) (0:ℚ)) = 0 := by
      rw [List.replicate_succ]
      simpa [listMax] using foldl_max_replicate_zero m
    unfold compute_statistics
    rw [if_neg hne]
    simp only [hmean, hmedian, hvar, hmin, hmax, List.length_replicate]
    split <;> simp

/-- C10: every ingested CapabilityResult carries score `0.0`, so the score
list `generate_report` extracts is a run of zeros of length
`tested_capabilities`, and whenever at least one capability is TESTED the
statistics summary is exactly mean 0, median 0, stdev 0, min 0, max 0 and
count `tested_capabilities`. -/
theorem c10_scores_all_zero (fs : FS) (rs : List CapabilityResult)
    (h : collectAllResults fs = Except.ok rs) :
    reportScores rs =
      List.replicate (check_compliance rs).tested_capabilities 0 ∧
    (1 ≤ (check_compliance rs).tested_capabilities →
      compute_statistics (reportScores rs) =
        some { mean := 0, median := 0, variance := 0, min := 0, max := 0,
               count := (check_compliance rs).tested_capabilities }) := by
  have hfields := collectLoop_mem_fields fs capabilities rs h
  have hrep : reportScores rs =
      List.replicate (check_compliance rs).tested_capabilities 0 := by
    refine List.eq_replicate_iff.2 ⟨?_, ?_⟩
    · simp only [reportScores, check_compliance, List.length_map]
      exact (List.countP_eq_length_filter
        (fun c => decide (c.status = Status.TESTED)) rs).symm
    · intro b hb
      simp only [reportScores, List.mem_map, List.mem_filter] at hb
      obtain ⟨a, ⟨ha, _⟩, hab⟩ := hb
      rw [← hab]
      exact (hfields a ha).2
  refine ⟨hrep, ?_⟩
  intro hge
  rw [hrep]
  exact compute_statistics_replicate_zero _ hge

/-- Witness for C10 at the all-readable snapshot (31 TESTED results). -/
theorem c10_witness :
    reportScores rsAllTested =
      List.replicate (check_compliance rsAllTested).tested_capabilities 0 ∧
    (1 ≤ (check_compliance rsAllTested).tested_capabilities →
      compute_statistics (reportScores rsAllTested) =
        some { mean := 0, median := 0, variance := 0, min := 0, max := 0,
               count := (check_compliance rsAllTested).tested_capabilities }) :=
  c10_scores_all_zero allReadable rsAllTested rfl

